import Mathlib

/-!
Shallow embedding of `src/code_analyzer_agent.py` (a single-file GitHub
code-quality agent) and proofs of the specification's claims about it.

Modelling conventions:
* The process-wide Python dict `file_cache` is an association list threaded
  explicitly through every operation; a new binding is prepended, and
  `List.lookup` returns the most recent binding, which matches dict
  assignment/overwrite semantics.
* The external HTTP boundary (`requests.get`) is an oracle
  `Http : String → HttpResponse` mapping a URL to a status code and body.
  Each operation that performs requests also returns the ordered list of
  URLs it requested, so that "tries main first, master second" is a
  provable statement rather than an informal one.
* The external model boundary (`client.chat.completions.create`) is an
  oracle `List Message → AssistantMessage`: the response may carry
  tool-invocation requests. `json.loads` applied to a tool call's raw
  argument string is an external library call and is modelled by an oracle
  `parse : String → JsonMap`; `json.dumps` applied to a tool result is
  modelled by `json_dumps` below.
* Python dict return values of the tools are modelled by `JObj`,
  a list of key/value pairs in source order.
* All definitions are total; the Python functions under consideration
  contain no `raise` and no catch, so totality of the embedding mirrors
  "never raises an uncaught exception" for the pure parts.
-/

/-- Values appearing in the dict results the tools return: strings,
numbers (all numeric results here are non-negative counts) and booleans. -/
inductive JVal where
  | s (v : String)
  | n (v : Nat)
  | b (v : Bool)
deriving DecidableEq, Repr

/-- A Python dict result, as an ordered list of key/value pairs. -/
abbrev JObj := List (String × JVal)

/-- The mapping produced by `json.loads` on a tool-argument payload:
string keyword arguments keyed by parameter name. -/
abbrev JsonMap := List (String × String)

/-- The process-wide `file_cache` dict: file path → cached text.
Newest binding first; `List.lookup` finds the newest, as dict overwrite does. -/
abbrev Cache := List (String × String)

/-- Response of one HTTP GET: `response.status_code` and `response.text`. -/
structure HttpResponse where
  status_code : Nat
  text : String
deriving DecidableEq, Repr

/-- The external HTTP boundary: URL → response. -/
abbrev Http := String → HttpResponse

/-- URL construction `f"https://raw.githubusercontent.com/{owner}/{repo}/{branch}/{file_path}"`. -/
def github_raw_url (owner repo branch file_path : String) : String :=
  "https://raw.githubusercontent.com/" ++ owner ++ "/" ++ repo ++ "/" ++ branch ++ "/" ++ file_path

/-- Embedding of `fetch_github_file(owner, repo, file_path)` (lines 47-60).
Tries the `main` branch URL; on status 200 caches the body and reports
success with the body's character length; otherwise tries the `master`
branch URL the same way; otherwise reports `File not found`.
Returns (result dict, cache afterwards, URLs requested in order). -/
def fetch_github_file (http : Http) (cache : Cache) (owner repo file_path : String) :
    JObj × Cache × List String :=
  let url_main := github_raw_url owner repo "main" file_path
  let response := http url_main
  if response.status_code = 200 then
    ([("success", JVal.b true), ("file_path", JVal.s file_path),
      ("size", JVal.n response.text.length)],
     (file_path, response.text) :: cache, [url_main])
  else
    let url_master := github_raw_url owner repo "master" file_path
    let response2 := http url_master
    if response2.status_code = 200 then
      ([("success", JVal.b true), ("file_path", JVal.s file_path),
        ("size", JVal.n response2.text.length)],
       (file_path, response2.text) :: cache, [url_main, url_master])
    else
      ([("success", JVal.b false), ("error", JVal.s "File not found")], cache,
       [url_main, url_master])

/-- Embedding of Python `str.count(pat)` (non-overlapping occurrences,
scanning left to right) on character lists, driven by a fuel argument so
the definition is structural and evaluates inside the kernel. Fuel equal
to the list's length suffices for a non-empty pattern, since each step
consumes at least one character. -/
def count_substr_go (pat : List Char) : Nat → List Char → Nat
  | _, [] => 0
  | 0, _ :: _ => 0
  | fuel + 1, c :: rest =>
    if pat.isPrefixOf (c :: rest) then
      1 + count_substr_go pat fuel (rest.drop (pat.length - 1))
    else
      count_substr_go pat fuel rest

/-- Embedding of Python `s.count(pat)`. Python returns `len(s) + 1` for the
empty pattern; this program only ever counts the four non-empty tokens. -/
def count_substr (s pat : String) : Nat :=
  if pat = "" then s.length + 1
  else count_substr_go pat.toList s.toList.length s.toList

/-- Embedding of Python `code.split('\n')` on character lists: splits at
every newline, keeping empty parts, so `n` separators give `n + 1` parts. -/
def py_split_newline_chars : List Char → List (List Char)
  | [] => [[]]
  | c :: rest =>
    if c = '\n' then [] :: py_split_newline_chars rest
    else
      match py_split_newline_chars rest with
      | [] => [[c]]
      | l :: ls => (c :: l) :: ls

/-- Embedding of Python `code.split('\n')`. -/
def py_split_newline (code : String) : List String :=
  (py_split_newline_chars code.data).map String.mk

/-- The ASCII whitespace characters Python `str.strip()` removes
(`str.strip` also removes Unicode whitespace; the texts this program
analyzes are ASCII, where the two agree). -/
def py_is_space (c : Char) : Bool :=
  c = ' ' || c = '\t' || c = '\n' || c = '\r' || c = '\x0b' || c = '\x0c'

/-- Embedding of Python `l.strip()`: drop leading and trailing whitespace. -/
def py_strip (s : String) : String :=
  String.mk (((s.data.dropWhile py_is_space).reverse.dropWhile py_is_space).reverse)

/-- Embedding of Python `s.startswith(p)` for a single string `p`. -/
def py_startswith (s p : String) : Bool :=
  p.data.isPrefixOf s.data

/-- The comment-prefix tuple of line 70: `('//', '#', '/*', '*')`. -/
def comment_prefixes : List String := ["//", "#", "/*", "*"]

/-- Python `s.startswith(tuple)`: true when some listed string is a prefix. -/
def startswith_any (s : String) (ps : List String) : Bool :=
  ps.any (fun p => py_startswith s p)

/-- Embedding of `analyze_code_quality(file_path)` (lines 62-79). The
function only reads `file_cache`, so the cache is returned unchanged in
both branches, mirroring the absence of any assignment to it.
Returns (result dict, cache afterwards). -/
def analyze_code_quality (cache : Cache) (file_path : String) : JObj × Cache :=
  match cache.lookup file_path with
  | none => ([("error", JVal.s "File not fetched yet. Call fetch_github_file first.")], cache)
  | some code =>
    let lines := py_split_newline code
    let total_lines := lines.length
    let code_lines :=
      (lines.filter (fun l => py_strip l != "" && !(startswith_any (py_strip l) comment_prefixes))).length
    let function_count :=
      count_substr code "function " + count_substr code "def " +
      count_substr code "const " + count_substr code "let "
    ([("file_path", JVal.s file_path), ("total_lines", JVal.n total_lines),
      ("code_lines", JVal.n code_lines), ("estimated_functions", JVal.n function_count),
      ("note", JVal.s "Metrics calculated from cached file.")], cache)

/-- Embedding of `process_tool_call(tool_name, tool_input)` (lines 81-85).
Keyword-argument unpacking `f(**tool_input)` is modelled by looking the
parameter names up in the parsed argument mapping. An unrecognized tool
name falls through both branches, so Python implicitly returns `None`,
modelled as `none`, with the cache untouched and no HTTP request made.
Returns (optional result dict, cache afterwards, URLs requested). -/
def process_tool_call (http : Http) (cache : Cache) (tool_name : String) (tool_input : JsonMap) :
    Option JObj × Cache × List String :=
  if tool_name = "fetch_github_file" then
    let r := fetch_github_file http cache
      ((tool_input.lookup "owner").getD "") ((tool_input.lookup "repo").getD "")
      ((tool_input.lookup "file_path").getD "")
    (some r.1, r.2.1, r.2.2)
  else if tool_name = "analyze_code_quality" then
    let r := analyze_code_quality cache ((tool_input.lookup "file_path").getD "")
    (some r.1, r.2, [])
  else
    (none, cache, [])

/-- The function payload of a tool call as the model returns it:
`tool_call.function.name` and the raw serialized string
`tool_call.function.arguments`. -/
structure FunctionPayload where
  name : String
  arguments : String
deriving DecidableEq, Repr

/-- A tool-invocation descriptor from the model response:
`tool_call.id` and `tool_call.function`. -/
structure ToolCall where
  id : String
  function : FunctionPayload
deriving DecidableEq, Repr

/-- One assistant-message payload from the model: its `tool_calls` (the
empty list models Python-falsy `None`/`[]`) and its text `content`. -/
structure AssistantMessage where
  tool_calls : List ToolCall
  content : String
deriving DecidableEq, Repr

/-- A transcript message. The dict literals appended by `run_agent` are:
user/system seeds, `{"role": "assistant", "content": "", "tool_calls": [...]}`
(the stored descriptor keeps `"type": "function"` implicitly — it is the
same constant for every entry), and
`{"role": "tool", "tool_call_id": ..., "content": ...}`. -/
inductive Message where
  | user (content : String)
  | system (content : String)
  | assistant (content : String) (tool_calls : List ToolCall)
  | tool (tool_call_id : String) (content : String)
deriving DecidableEq, Repr

/-- The external model boundary: transcript so far → assistant message. -/
abbrev Model := List Message → AssistantMessage

/-- The external `json.loads` on a raw tool-argument string. -/
abbrev Parse := String → JsonMap

/-- Embedding of `json.dumps` on one value; this program serializes only
strings, counts and booleans. String escaping is elided: no string this
program serializes contains a character `json.dumps` would escape. -/
def json_val_dumps : JVal → String
  | JVal.s v => "\"" ++ v ++ "\""
  | JVal.n v => toString v
  | JVal.b true => "true"
  | JVal.b false => "false"

/-- Comma-joined `"key": value` items, as `json.dumps` default separators. -/
def json_obj_items : JObj → String
  | [] => ""
  | [(k, v)] => "\"" ++ k ++ "\": " ++ json_val_dumps v
  | (k, v) :: rest => "\"" ++ k ++ "\": " ++ json_val_dumps v ++ ", " ++ json_obj_items rest

/-- Embedding of `json.dumps(result)` (line 149): `result` may be `None`
(when the dispatcher fell through), which serializes to `null`. -/
def json_dumps : Option JObj → String
  | none => "null"
  | some obj => "\x7b" ++ json_obj_items obj ++ "\x7d"

/-- Outcome of one iteration of the `while` loop in `run_agent`:
either the model produced no tool call and the loop returns its content,
or the loop dispatched a tool and continues with the extended transcript
and updated cache. `executed` records the tool invocations dispatched in
this iteration and `requests` the HTTP requests it made. -/
inductive StepOutcome where
  | finished (final : String)
  | continued (messages : List Message) (cache : Cache)
      (executed : List ToolCall) (requests : List String)
deriving DecidableEq, Repr

/-- Embedding of one iteration of the `while` loop body (lines 97-158).
When `assistant_message.tool_calls` is non-empty only its head
(`tool_calls[0]`, line 118) is dispatched; its arguments are parsed with
`json.loads` for the dispatcher, the raw argument string is stored
verbatim in the appended assistant message (lines 131-142), and the
serialized result keyed by the call id follows (lines 146-150). -/
def agent_step (model : Model) (parse : Parse) (http : Http)
    (messages : List Message) (cache : Cache) : StepOutcome :=
  match (model messages).tool_calls with
  | [] => StepOutcome.finished (model messages).content
  | tool_call :: _ =>
    StepOutcome.continued
      (messages ++
        [Message.assistant "" [⟨tool_call.id, ⟨tool_call.function.name, tool_call.function.arguments⟩⟩],
         Message.tool tool_call.id
           (json_dumps (process_tool_call http cache tool_call.function.name
             (parse tool_call.function.arguments)).1)])
      (process_tool_call http cache tool_call.function.name
        (parse tool_call.function.arguments)).2.1
      [tool_call]
      (process_tool_call http cache tool_call.function.name
        (parse tool_call.function.arguments)).2.2

/-- Everything a run produces: the returned string, the number of model
round-trips performed, the tool invocations dispatched over the whole run
in order, and the final transcript and cache. -/
structure RunResult where
  final : String
  modelCalls : Nat
  executed : List ToolCall
  messages : List Message
  cache : Cache
deriving DecidableEq, Repr

/-- The `while iteration < max_iterations` loop of `run_agent`
(lines 97-160), with the remaining iteration budget as fuel: fuel `0`
is `iteration = max_iterations`, where the loop exits and line 160
returns the sentinel. Each iteration performs exactly one model call. -/
def run_agent_loop (model : Model) (parse : Parse) (http : Http) :
    Nat → List Message → Cache → Nat → List ToolCall → RunResult
  | 0, messages, cache, calls, execed =>
    ⟨"Max iterations reached", calls, execed, messages, cache⟩
  | fuel + 1, messages, cache, calls, execed =>
    match agent_step model parse http messages cache with
    | StepOutcome.finished final => ⟨final, calls + 1, execed, messages, cache⟩
    | StepOutcome.continued messages2 cache2 ex _reqs =>
      run_agent_loop model parse http fuel messages2 cache2 (calls + 1) (execed ++ ex)

/-- The iteration cap `max_iterations = 10` (line 94). -/
def max_iterations : Nat := 10

/-- The fixed system instruction seeded into the transcript (line 88). -/
def system_instruction : String :=
  "You are a code quality analysis agent. Use the tools to fetch and analyze code from GitHub repositories. Call one tool at a time."

/-- Embedding of `run_agent(user_message)` (lines 87-160): seeds the
transcript with the user message and the fixed system instruction, then
runs at most `max_iterations` iterations. The starting cache is a
parameter because the Python `file_cache` is a module-level dict that may
already hold entries from earlier runs in the process. -/
def run_agent (model : Model) (parse : Parse) (http : Http) (cache : Cache)
    (user_message : String) : RunResult :=
  run_agent_loop model parse http max_iterations
    [Message.user user_message, Message.system system_instruction] cache 0 []

/-! Specification-side definitions, written from the spec's words, for the
refinement claims about the computed metrics (C7, C8). -/

/-- Spec side, C7: "`total_lines` = line count including blanks" after
splitting the cached text into lines by newline. -/
def spec_total_lines (code : String) : Nat :=
  (py_split_newline code).length

/-- Spec side, C7: a line counts as code when it is "non-blank after
trimming whitespace" and does "not start with one of the fixed comment
prefixes ('//', '#', '/*', '*')". -/
def spec_is_code_line (l : String) : Bool :=
  py_strip l != "" && !(py_startswith (py_strip l) "//") && !(py_startswith (py_strip l) "#") &&
    !(py_startswith (py_strip l) "/*") && !(py_startswith (py_strip l) "*")

/-- Spec side, C7: "`code_lines` = count of lines" that qualify. -/
def spec_code_lines (code : String) : Nat :=
  ((py_split_newline code).filter spec_is_code_line).length

/-- Spec side, C8: the four fixed tokens. -/
def function_tokens : List String := ["function ", "def ", "const ", "let "]

/-- Spec side, C8: "sum of the literal substring occurrence counts of the
four tokens". -/
def spec_estimated_functions (code : String) : Nat :=
  (function_tokens.map (fun t => count_substr code t)).sum

/-! Concrete instances used by the witnesses below. -/

/-- Witness instance: a 10-line cached file with 3 blank lines, 2
comment-only `//` lines and 5 code lines (C7's scenario). -/
def ten_line_file : String :=
  "int a = 1;\n\n// comment one\nint b = 2;\n\nint c = 3;\n// comment two\nint d = 4;\n\nint e = 5;"

/-- Witness instance: the one-line text of C8's scenario. -/
def fn_sample : String := "function foo()\x7b\x7d const x = 1; let y = 2;"

/-- Witness instance: an HTTP boundary on which every URL answers 200. -/
def http200 : Http := fun _ => ⟨200, "hello"⟩

/-- Witness instance: an HTTP boundary on which every URL answers 404. -/
def http404 : Http := fun _ => ⟨404, "404: Not Found"⟩

/-- Witness instance: a `json.loads` oracle returning the empty mapping. -/
def parse_empty : Parse := fun _ => []

/-- Witness instance: a first tool-invocation descriptor. -/
def tc_sample : ToolCall := ⟨"call_1", ⟨"unknown_tool", ""⟩⟩

/-- Witness instance: a second tool-invocation descriptor. -/
def tc2_sample : ToolCall := ⟨"call_2", ⟨"also_unknown", ""⟩⟩

/-- Witness instance: a model that requests one tool call on every turn. -/
def model_tool : Model := fun _ => ⟨[tc_sample], "still working"⟩

/-- Witness instance: a model that requests two tool calls on every turn. -/
def model_two : Model := fun _ => ⟨[tc_sample, tc2_sample], "still working"⟩

/-! Helper lemmas shared by the proofs below. -/

/-- The filter predicate of line 70 agrees pointwise with the spec-side
code-line predicate. -/
theorem code_line_pred_eq (l : String) :
    (py_strip l != "" && !(startswith_any (py_strip l) comment_prefixes)) =
      spec_is_code_line l := by
  simp only [spec_is_code_line, startswith_any, comment_prefixes, List.any_cons, List.any_nil,
    Bool.or_false, Bool.not_or, Bool.and_assoc]

/-- The loop performs at most `calls + fuel` model round-trips in total. -/
theorem run_agent_loop_modelCalls_le (model : Model) (parse : Parse) (http : Http)
    (fuel : Nat) (messages : List Message) (cache : Cache) (calls : Nat)
    (execed : List ToolCall) :
    (run_agent_loop model parse http fuel messages cache calls execed).modelCalls ≤
      calls + fuel := by
  induction fuel generalizing messages cache calls execed with
  | zero => simp [run_agent_loop]
  | succ n ih =>
    unfold run_agent_loop
    cases hstep : agent_step model parse http messages cache with
    | finished final => simp
    | continued messages2 cache2 ex reqs =>
      have h := ih messages2 cache2 (calls + 1) (execed ++ ex)
      show (run_agent_loop model parse http n messages2 cache2 (calls + 1)
        (execed ++ ex)).modelCalls ≤ calls + (n + 1)
      omega

/-- When the model requests a tool on every turn, the loop exhausts its
fuel and returns the sentinel of line 160. -/
theorem run_agent_loop_all_tools_sentinel (model : Model) (parse : Parse) (http : Http)
    (halways : ∀ ms : List Message, (model ms).tool_calls ≠ [])
    (fuel : Nat) (messages : List Message) (cache : Cache) (calls : Nat)
    (execed : List ToolCall) :
    (run_agent_loop model parse http fuel messages cache calls execed).final =
      "Max iterations reached" := by
  induction fuel generalizing messages cache calls execed with
  | zero => simp [run_agent_loop]
  | succ n ih =>
    unfold run_agent_loop
    cases h : (model messages).tool_calls with
    | nil => exact absurd h (halways messages)
    | cons tc rest =>
      simp only [agent_step, h]
      exact ih _ _ _ _

/-! Claim theorems. -/

/-- C1: for every path that is not a key of the content cache,
`analyze_code_quality` returns the error result dict whose `error` field
says the file must be fetched first; being a total Lean function, the
embedding raises nothing, and no metrics field is computed. -/
theorem analyze_unfetched_returns_error (cache : Cache) (file_path : String)
    (h : cache.lookup file_path = none) :
    (analyze_code_quality cache file_path).1 =
      [("error", JVal.s "File not fetched yet. Call fetch_github_file first.")] ∧
    ((analyze_code_quality cache file_path).1).lookup "error" =
      some (JVal.s "File not fetched yet. Call fetch_github_file first.") := by
  refine ⟨?_, ?_⟩ <;> simp [analyze_code_quality, h, List.lookup]

/-- C1 witness: the empty cache holds no entry for `src/core.js`. -/
theorem analyze_unfetched_returns_error_witness :
    (analyze_code_quality [] "src/core.js").1 =
      [("error", JVal.s "File not fetched yet. Call fetch_github_file first.")] ∧
    ((analyze_code_quality [] "src/core.js").1).lookup "error" =
      some (JVal.s "File not fetched yet. Call fetch_github_file first.") :=
  analyze_unfetched_returns_error [] "src/core.js" rfl

/-- C2: whenever an attempted branch URL (the `main` URL, or the `master`
URL after `main` failed) answers 200 with body `t`, `fetch_github_file`
returns success with the path and the character length of `t`, and the
cache afterwards maps the path to exactly `t`. -/
theorem fetch_success_roundtrip (http : Http) (cache : Cache)
    (owner repo file_path t : String)
    (h : ((http (github_raw_url owner repo "main" file_path)).status_code = 200 ∧
          (http (github_raw_url owner repo "main" file_path)).text = t) ∨
         ((http (github_raw_url owner repo "main" file_path)).status_code ≠ 200 ∧
          (http (github_raw_url owner repo "master" file_path)).status_code = 200 ∧
          (http (github_raw_url owner repo "master" file_path)).text = t)) :
    (fetch_github_file http cache owner repo file_path).1 =
      [("success", JVal.b true), ("file_path", JVal.s file_path),
       ("size", JVal.n t.length)] ∧
    ((fetch_github_file http cache owner repo file_path).2.1).lookup file_path = some t := by
  rcases h with ⟨h200, htext⟩ | ⟨hne, h200, htext⟩
  · refine ⟨?_, ?_⟩ <;> simp [fetch_github_file, h200, htext, List.lookup]
  · refine ⟨?_, ?_⟩ <;> simp [fetch_github_file, hne, h200, htext, List.lookup]

/-- C2 witness: on an HTTP boundary answering 200 with body `hello`
everywhere, fetching `src/core.js` from `jquery/jquery` reports size 5
and caches the body. -/
theorem fetch_success_roundtrip_witness :
    (fetch_github_file http200 [] "jquery" "jquery" "src/core.js").1 =
      [("success", JVal.b true), ("file_path", JVal.s "src/core.js"),
       ("size", JVal.n 5)] ∧
    ((fetch_github_file http200 [] "jquery" "jquery" "src/core.js").2.1).lookup "src/core.js" =
      some "hello" :=
  have h := fetch_success_roundtrip http200 [] "jquery" "jquery" "src/core.js" "hello"
    (Or.inl ⟨rfl, rfl⟩)
  ⟨h.1.trans (by decide), h.2⟩

/-- C3 counterexample: with every URL answering 404 and a cache that
already holds an entry for path `p` (for example from an earlier
successful fetch), both branch attempts return non-200 and the failed
fetch returns the `File not found` result, yet afterwards the cache does
hold an entry for `p` — so "leaves no cache entry for that path", read as
the absence of an entry after the call, is false. -/
theorem fetch_both_fail_counterexample :
    (http404 (github_raw_url "o" "r" "main" "p")).status_code ≠ 200 ∧
    (http404 (github_raw_url "o" "r" "master" "p")).status_code ≠ 200 ∧
    (fetch_github_file http404 [("p", "x")] "o" "r" "p").1 =
      [("success", JVal.b false), ("error", JVal.s "File not found")] ∧
    ((fetch_github_file http404 [("p", "x")] "o" "r" "p").2.1).lookup "p" = some "x" := by
  refine ⟨by decide, by decide, by decide, by decide⟩

/-- C3 (amended): `fetch_github_file` requests the `main` branch URL
first and the `master` branch URL second; when both answer non-200 it
returns the `File not found` failure dict and leaves the cache unchanged
— in particular, if the path was not cached before the call, it is still
not cached after it. -/
theorem fetch_both_fail (http : Http) (cache : Cache) (owner repo file_path : String)
    (hmain : (http (github_raw_url owner repo "main" file_path)).status_code ≠ 200)
    (hmaster : (http (github_raw_url owner repo "master" file_path)).status_code ≠ 200) :
    fetch_github_file http cache owner repo file_path =
      ([("success", JVal.b false), ("error", JVal.s "File not found")], cache,
       [github_raw_url owner repo "main" file_path,
        github_raw_url owner repo "master" file_path]) ∧
    (cache.lookup file_path = none →
      ((fetch_github_file http cache owner repo file_path).2.1).lookup file_path = none) := by
  constructor
  · simp [fetch_github_file, hmain, hmaster]
  · intro hnone
    simp [fetch_github_file, hmain, hmaster, hnone]

/-- C3 witness: on an all-404 boundary with an empty cache, the failed
fetch returns the failure dict, requested main before master, and the
path stays uncached. -/
theorem fetch_both_fail_witness :
    fetch_github_file http404 [] "o" "r" "p" =
      ([("success", JVal.b false), ("error", JVal.s "File not found")], [],
       [github_raw_url "o" "r" "main" "p", github_raw_url "o" "r" "master" "p"]) ∧
    (([] : Cache).lookup "p" = none →
      ((fetch_github_file http404 [] "o" "r" "p").2.1).lookup "p" = none) :=
  fetch_both_fail http404 [] "o" "r" "p" (by decide) (by decide)

/-- Helper: on a cached path the analysis result dict is exactly the
success dict, with each metric given by its spec-side function. -/
theorem analyze_success_obj (cache : Cache) (file_path code : String)
    (h : cache.lookup file_path = some code) :
    (analyze_code_quality cache file_path).1 =
      [("file_path", JVal.s file_path), ("total_lines", JVal.n (spec_total_lines code)),
       ("code_lines", JVal.n (spec_code_lines code)),
       ("estimated_functions", JVal.n (spec_estimated_functions code)),
       ("note", JVal.s "Metrics calculated from cached file.")] := by
  have hfilter : (py_split_newline code).filter
      (fun l => py_strip l != "" && !(startswith_any (py_strip l) comment_prefixes)) =
      (py_split_newline code).filter spec_is_code_line :=
    List.filter_congr (fun l _ => code_line_pred_eq l)
  simp only [analyze_code_quality, h, spec_total_lines, spec_code_lines,
    spec_estimated_functions, function_tokens, List.map_cons, List.map_nil, List.sum_cons,
    List.sum_nil, hfilter, Nat.add_zero, Nat.add_assoc]

/-- C4: in every iteration of the agent loop in which the model response
requests one or more tool invocations, exactly one tool invocation is
dispatched in that iteration — the first one in the response — and it is
the only descriptor the iteration adds to the run's executed log, so the
further requested invocations of that response are never executed. -/
theorem run_agent_executes_first_tool_only (model : Model) (parse : Parse) (http : Http)
    (fuel : Nat) (messages : List Message) (cache : Cache) (calls : Nat)
    (execed : List ToolCall) (tc : ToolCall) (rest : List ToolCall)
    (h : (model messages).tool_calls = tc :: rest) :
    ∃ messages2 cache2,
      run_agent_loop model parse http (fuel + 1) messages cache calls execed =
        run_agent_loop model parse http fuel messages2 cache2 (calls + 1) (execed ++ [tc]) := by
  refine ⟨messages ++
      [Message.assistant "" [⟨tc.id, ⟨tc.function.name, tc.function.arguments⟩⟩],
       Message.tool tc.id (json_dumps (process_tool_call http cache tc.function.name
         (parse tc.function.arguments)).1)],
    (process_tool_call http cache tc.function.name (parse tc.function.arguments)).2.1, ?_⟩
  conv_lhs => rw [run_agent_loop]
  simp only [agent_step, h]

/-- C4 witness: a model requesting two invocations per turn has only the
first dispatched in the iteration. -/
theorem run_agent_executes_first_tool_only_witness :
    ∃ messages2 cache2,
      run_agent_loop model_two parse_empty http404 1 [Message.user "hi"] [] 0 [] =
        run_agent_loop model_two parse_empty http404 0 messages2 cache2 1 [tc_sample] :=
  run_agent_executes_first_tool_only model_two parse_empty http404 0 [Message.user "hi"]
    [] 0 [] tc_sample [tc2_sample] rfl

/-- C5: `max_iterations` is 10; every run performs at most that many model
round-trips (the loop is a total function of its fuel, so it always
terminates); and when the model never produces a tool-free response the
cap is reached and the fixed sentinel is returned instead of model
content. -/
theorem run_agent_bounded_iterations (model : Model) (parse : Parse) (http : Http)
    (cache : Cache) (user_message : String) :
    max_iterations = 10 ∧
    (run_agent model parse http cache user_message).modelCalls ≤ max_iterations ∧
    ((∀ ms : List Message, (model ms).tool_calls ≠ []) →
      (run_agent model parse http cache user_message).final = "Max iterations reached") := by
  refine ⟨rfl, ?_, ?_⟩
  · have h := run_agent_loop_modelCalls_le model parse http max_iterations
      [Message.user user_message, Message.system system_instruction] cache 0 []
    simpa [run_agent] using h
  · intro halways
    exact run_agent_loop_all_tools_sentinel model parse http halways max_iterations
      [Message.user user_message, Message.system system_instruction] cache 0 []

/-- C5 witness: under a model that always requests a tool, the run makes
at most 10 model calls and returns the sentinel. -/
theorem run_agent_bounded_iterations_witness :
    max_iterations = 10 ∧
    (run_agent model_tool parse_empty http404 [] "go").modelCalls ≤ max_iterations ∧
    (run_agent model_tool parse_empty http404 [] "go").final = "Max iterations reached" :=
  have h := run_agent_bounded_iterations model_tool parse_empty http404 [] "go"
  ⟨h.1, h.2.1, h.2.2 (fun ms => by simp [model_tool])⟩

/-- C6: in every iteration that dispatches a tool, exactly the two
messages of lines 131-150 are appended to the transcript in order: first
the assistant-role message whose `tool_calls` list holds exactly the
honored descriptor with its raw argument string stored verbatim, then
the tool-role message keyed by the honored invocation's id whose content
is the JSON-serialized tool result; the transcript is extended by
`messages ++ ...`, so no existing entry is modified or removed. -/
theorem agent_step_appends_call_and_result (model : Model) (parse : Parse) (http : Http)
    (messages : List Message) (cache : Cache) (tc : ToolCall) (rest : List ToolCall)
    (h : (model messages).tool_calls = tc :: rest) :
    agent_step model parse http messages cache =
      StepOutcome.continued
        (messages ++
          [Message.assistant "" [⟨tc.id, ⟨tc.function.name, tc.function.arguments⟩⟩],
           Message.tool tc.id
             (json_dumps (process_tool_call http cache tc.function.name
               (parse tc.function.arguments)).1)])
        (process_tool_call http cache tc.function.name (parse tc.function.arguments)).2.1
        [tc]
        (process_tool_call http cache tc.function.name (parse tc.function.arguments)).2.2 := by
  simp only [agent_step, h]

/-- C6 witness: the dispatching iteration on a concrete transcript
appends exactly the assistant message holding the first descriptor and
the tool message holding the serialized result. -/
theorem agent_step_appends_call_and_result_witness :
    agent_step model_two parse_empty http404 [Message.user "hi"] [] =
      StepOutcome.continued
        [Message.user "hi", Message.assistant "" [tc_sample], Message.tool "call_1" "null"]
        [] [tc_sample] [] :=
  (agent_step_appends_call_and_result model_two parse_empty http404 [Message.user "hi"] []
    tc_sample [tc2_sample] rfl).trans (by decide)

/-- C7: on every cached text, the analysis reports `total_lines` as the
number of newline-separated lines including blanks and `code_lines` as
the number of lines that are non-blank after trimming and do not start
with one of the prefixes `//`, `#`, `/*`, `*` (the witness instantiates
the 10-line / 3-blank / 2-comment scenario, giving 10 and 5). -/
theorem analyze_line_counts (cache : Cache) (file_path code : String)
    (h : cache.lookup file_path = some code) :
    ((analyze_code_quality cache file_path).1).lookup "total_lines" =
      some (JVal.n (spec_total_lines code)) ∧
    ((analyze_code_quality cache file_path).1).lookup "code_lines" =
      some (JVal.n (spec_code_lines code)) := by
  rw [analyze_success_obj cache file_path code h]
  exact ⟨rfl, rfl⟩

/-- C7 witness: the 10-line file with 3 blank and 2 `//`-comment lines
yields `total_lines = 10` and `code_lines = 5`. -/
theorem analyze_line_counts_witness :
    ((analyze_code_quality [("demo.js", ten_line_file)] "demo.js").1).lookup "total_lines" =
      some (JVal.n 10) ∧
    ((analyze_code_quality [("demo.js", ten_line_file)] "demo.js").1).lookup "code_lines" =
      some (JVal.n 5) :=
  have h := analyze_line_counts [("demo.js", ten_line_file)] "demo.js" ten_line_file rfl
  ⟨h.1.trans (by decide), h.2.trans (by decide)⟩

/-- C8: on every cached text, the analysis reports `estimated_functions`
as the sum of the non-overlapping literal occurrence counts of the four
tokens `function `, `def `, `const `, `let ` (the witness instantiates
the scenario text, giving 3). -/
theorem analyze_estimated_functions (cache : Cache) (file_path code : String)
    (h : cache.lookup file_path = some code) :
    ((analyze_code_quality cache file_path).1).lookup "estimated_functions" =
      some (JVal.n (spec_estimated_functions code)) := by
  rw [analyze_success_obj cache file_path code h]
  rfl

/-- C8 witness: `function foo()\x7b\x7d const x = 1; let y = 2;` has
estimated_functions 3. -/
theorem analyze_estimated_functions_witness :
    ((analyze_code_quality [("app.js", fn_sample)] "app.js").1).lookup "estimated_functions" =
      some (JVal.n 3) :=
  (analyze_estimated_functions [("app.js", fn_sample)] "app.js" fn_sample rfl).trans (by decide)

/-- C9: for every tool name other than the two recognized ones and every
argument mapping, the dispatcher falls through both branches: it returns
Python's implicit `None`, mutates no cache entry, and makes no HTTP
request (no tool is executed). -/
theorem process_tool_call_unknown (http : Http) (cache : Cache) (tool_name : String)
    (tool_input : JsonMap) (h1 : tool_name ≠ "fetch_github_file")
    (h2 : tool_name ≠ "analyze_code_quality") :
    process_tool_call http cache tool_name tool_input = (none, cache, []) := by
  simp [process_tool_call, h1, h2]

/-- C9 witness: the unknown tool name `summarize_code` yields no result
and leaves the cache as it was. -/
theorem process_tool_call_unknown_witness :
    process_tool_call http404 [("a", "b")] "summarize_code" [("x", "y")] =
      (none, [("a", "b")], []) :=
  process_tool_call_unknown http404 [("a", "b")] "summarize_code" [("x", "y")]
    (by decide) (by decide)

/-- C10: for every cache state and every path, `analyze_code_quality`
leaves the content cache unchanged — in the error branch (path not
cached) and in the success branch alike, no entry is added, removed or
modified. -/
theorem analyze_preserves_cache (cache : Cache) (file_path : String) :
    (analyze_code_quality cache file_path).2 = cache := by
  cases h : cache.lookup file_path <;> simp [analyze_code_quality, h]
